import Mathlib

/-!
# Verification of the Mantle API client (`src/index.ts`)

A shallow embedding of the request gateway (`mantleRequest`), the client
constructor, and the domain operations `getCustomer`, `isFeatureEnabled`,
`limitForFeature`, `createHostedSession` and `notify`, together with the
feature-evaluation helper `evaluateFeature`.

Modelling choices:
* JavaScript runtime values are the inductive `JsValue`; numbers are
  modelled as `Int` (the feature values and counts the library compares
  are integral).
* Field access `x.f` / `x?.f` is `getField`, which yields `undefined` on
  a non-object or a missing key (the `?.` behaviour; the claims below
  only apply it where the source guarantees an object).
* The `in` operator is `jsHasKey`; the source only applies it where the
  operand is an object, and on non-objects the model answers `false`.
* The network is a parameter: a `FetchOutcome` says whether `fetch` plus
  `response.json()` produced a parsed body (with the `ok` flag) or threw.
-/

/-- A JavaScript runtime value as this library manipulates them. -/
inductive JsValue where
  | null : JsValue
  | undefined : JsValue
  | bool : Bool → JsValue
  | num : Int → JsValue
  | str : String → JsValue
  | obj : List (String × JsValue) → JsValue
deriving Repr

/-- JavaScript truthiness (`if (x)`). `NaN` is not representable in the
`Int` number model, so every number other than `0` is truthy. -/
def truthy : JsValue → Bool
  | .null => false
  | .undefined => false
  | .bool b => b
  | .num n => n != 0
  | .str s => s != ""
  | .obj _ => true

/-- The test `typeof x === "object"` (true for objects and for `null`). -/
def jsTypeofObject : JsValue → Bool
  | .null => true
  | .obj _ => true
  | _ => false

/-- The `in` operator, `key in x`. The source only uses it on objects;
on a non-object (where JavaScript would raise a `TypeError`) the model
answers `false`. -/
def jsHasKey (v : JsValue) (key : String) : Bool :=
  match v with
  | .obj fields => fields.any (fun kv => kv.1 == key)
  | _ => false

/-- Property access `x.f` (and the guarded `x?.f`): the field's value on
an object that has it, `undefined` otherwise. -/
def getField (v : JsValue) (key : String) : JsValue :=
  match v with
  | .obj fields =>
    match fields.lookup key with
    | some w => w
    | none => .undefined
  | _ => .undefined

/-- Strict equality `x === s` against a string literal. -/
def strictEqStr (v : JsValue) (s : String) : Bool :=
  match v with
  | .str t => t == s
  | _ => false

/-- Strict equality `x === n` against a number literal. -/
def strictEqNum (v : JsValue) (n : Int) : Bool :=
  match v with
  | .num m => m == n
  | _ => false

/-- JavaScript `ToNumber` on the values the library compares with `<`.
`none` denotes `NaN`; string-to-number coercion is not modelled (the
API contract sends numbers for limit features), so strings and objects
coerce to `NaN`. -/
def toNumber : JsValue → Option Int
  | .null => some 0
  | .undefined => none
  | .bool b => some (if b then 1 else 0)
  | .num n => some n
  | .str _ => none
  | .obj _ => none

/-- The comparison `c < v` where `c` is a number and `v` an arbitrary
value: `ToNumber` coercion, any comparison against `NaN` is `false`. -/
def jsLtNum (c : Int) (v : JsValue) : Bool :=
  match toNumber v with
  | some n => decide (c < n)
  | none => false

/-- Truthiness of an optional string-valued field (`undefined` or a
string): truthy iff present and non-empty. -/
def optTruthy : Option String → Bool
  | some s => s != ""
  | none => false

/-- Coercion `String(v)`: the string JavaScript prints for a value (used by
`URLSearchParams` on query values). -/
def jsToString : JsValue → String
  | .null => "null"
  | .undefined => "undefined"
  | .bool true => "true"
  | .bool false => "false"
  | .num n => toString n
  | .str s => s
  | .obj _ => "[object Object]"

/-- Serialization `new URLSearchParams(body)` rendered to a query string: each entry
becomes `key=String(value)`, entries joined by `&`. Percent-encoding is
not modelled; no claim depends on the escaping of individual octets. -/
def urlSearchParams (body : List (String × JsValue)) : String :=
  String.intercalate "&" (body.map (fun kv => kv.1 ++ "=" ++ jsToString kv.2))

/-- Escaping of one character inside a JSON string literal. -/
def jsonEscapeChar (c : Char) : String :=
  if c == '"' then "\\\"" else if c == '\\' then "\\\\" else String.mk [c]

/-- Escaping of a string for a JSON string literal. -/
def jsonEscape (s : String) : String :=
  String.join (s.data.map jsonEscapeChar)

mutual

/-- Serialization `JSON.stringify(v)`: the builtin JSON serializer (an object field
holding `undefined` is omitted, as the builtin does). -/
def jsonStringify : JsValue → String
  | .null => "null"
  | .undefined => "null"
  | .bool true => "true"
  | .bool false => "false"
  | .num n => toString n
  | .str s => "\"" ++ jsonEscape s ++ "\""
  | .obj fields => "\x7b" ++ String.intercalate "," (jsonStringifyFields fields) ++ "\x7d"

/-- The rendered `"key":value` members of an object, skipping fields
whose value is `undefined` as `JSON.stringify` does. -/
def jsonStringifyFields : List (String × JsValue) → List String
  | [] => []
  | (k, v) :: rest =>
    match v with
    | .undefined => jsonStringifyFields rest
    | _ => ("\"" ++ jsonEscape k ++ "\":" ++ jsonStringify v) :: jsonStringifyFields rest

end

/-- The test `path.startsWith("/")`: the string begins with a slash. -/
def startsWithSlash (s : String) : Bool :=
  match s.data with
  | [] => false
  | c :: _ => c == '/'

/-- The path with a single leading slash removed when it has one
(a definition on the spec's side, used to state the URL-shape theorems;
the source never computes this). -/
def dropOneLeadingSlash (s : String) : String :=
  if startsWithSlash s then String.mk s.data.tail else s

/-- The constructor parameter object (`MantleClientParams`): `appId` is
a required string, the rest optional. -/
structure MantleClientParams where
  appId : String
  apiKey : Option String := none
  customerApiToken : Option String := none
  apiUrl : Option String := none

/-- The configuration a constructed `MantleClient` stores. -/
structure MantleClient where
  appId : String
  apiKey : Option String
  customerApiToken : Option String
  apiUrl : String
deriving Repr, DecidableEq

/-- The default of the `apiUrl` constructor parameter. -/
def defaultApiUrl : String := "https://appapi.heymantle.com/v1"

/-- The `MantleClient` constructor (source lines 863–882).
`windowDefined` is `typeof window !== "undefined"`, the browser-like
context detection; `!appId` on a string is emptiness; `apiKey` in the
browser guard is JS-truthiness of the optional string. A `throw` is the
`Except.error` case. -/
def mkMantleClient (windowDefined : Bool) (p : MantleClientParams) :
    Except String MantleClient :=
  if p.appId == "" then
    Except.error "MantleClient appId is required"
  else if windowDefined && optTruthy p.apiKey then
    Except.error "MantleClient apiKey should never be used in the browser"
  else
    Except.ok
      { appId := p.appId
        apiKey := p.apiKey
        customerApiToken := p.customerApiToken
        apiUrl := p.apiUrl.getD defaultApiUrl }

/-- A logical request descriptor (`MantleRequestParams`): path, method
(defaulting to GET) and optional body object. -/
structure MantleRequestParams where
  path : String
  method : String := "GET"
  body : Option (List (String × JsValue)) := none

/-- The observable outbound HTTP call `fetch` is given: target URL,
method, header list in construction order, and optional request
payload. -/
structure HttpRequest where
  url : String
  method : String
  headers : List (String × String)
  payload : Option String
deriving Repr, DecidableEq

/-- The header object of the `fetch` call (source lines 899–907): the
three fixed headers, then the API-key header when `this.apiKey` is
truthy, then the customer-token header when `this.customerApiToken` is
truthy (conditional object spreads). -/
def requestHeaders (client : MantleClient) : List (String × String) :=
  [("Content-Type", "application/json"),
   ("Accept", "application/json"),
   ("X-Mantle-App-Id", client.appId)] ++
  (match client.apiKey with
   | some k => if k != "" then [("X-Mantle-App-Api-Key", k)] else []
   | none => []) ++
  (match client.customerApiToken with
   | some t => if t != "" then [("X-Mantle-Customer-Api-Token", t)] else []
   | none => [])

/-- The outbound call `mantleRequest` builds (source lines 894–912):
  url  = apiUrl ++ (path.startsWith("/") ? "" : "/") ++ path
         ++ (body && method === "GET" ? "?" ++ URLSearchParams(body) : "")
and the payload is `JSON.stringify(body)` exactly when a body is present
and the method is not GET. -/
def buildRequest (client : MantleClient) (p : MantleRequestParams) : HttpRequest :=
  { url := client.apiUrl ++ (if startsWithSlash p.path then "" else "/") ++ p.path ++
      (match p.body with
       | some b => if p.method == "GET" then "?" ++ urlSearchParams b else ""
       | none => "")
    method := p.method
    headers := requestHeaders client
    payload :=
      match p.body with
      | some b => if p.method != "GET" then some (jsonStringify (JsValue.obj b)) else none
      | none => none }

/-- What the network did for one issued call: either `fetch` returned a
response whose body `response.json()` parsed (with the `response.ok`
flag), or `fetch`/`response.json()` threw with a message. -/
inductive FetchOutcome where
  | response (ok : Bool) (body : JsValue)
  | failure (message : String)

/-- What `mantleRequest` hands its caller: a returned value, or an
exception propagating out of the `catch` block. -/
inductive MantleResult where
  | value (v : JsValue)
  | thrown (message : String)
deriving Repr

/-- The error test of source lines 917–920:
`!response.ok || (result && typeof result === "object" && "error" in result)`
— its second disjunct. -/
def errorShaped (v : JsValue) : Bool :=
  truthy v && jsTypeofObject v && jsHasKey v "error"

/-- The diagnostic line of source line 926:
`[mantleRequest] ${path} error: ${e.message}`. -/
def logLine (path message : String) : String :=
  "[mantleRequest] " ++ path ++ " error: " ++ message

/-- The request gateway (source lines 888–929) as a function of the
network's behaviour: it emits the built call, and on a parsed response
returns `result` whether or not the error test fired (both arms of the
source's conditional return `result`; the cast differs only for the
type checker), while on a thrown transport/parse failure it logs one
line naming the path and re-throws. The triple is
(outbound call, result handed to the caller, console.error lines). -/
def mantleRequest (client : MantleClient) (p : MantleRequestParams)
    (outcome : FetchOutcome) : HttpRequest × MantleResult × List String :=
  (buildRequest client p,
   match outcome with
   | .response ok body =>
     if !ok || errorShaped body then (.value body, [])
     else (.value body, [])
   | .failure msg => (.thrown msg, [logLine p.path msg]))

/-- Operation `getCustomer` on the gateway's returned body (source lines 989–1000):
an `"error" in response` body is returned as-is, otherwise the nested
`response.customer` is unwrapped. -/
def getCustomer (response : JsValue) : JsValue :=
  if jsHasKey response "error" then response
  else getField response "customer"

/-- Helper `evaluateFeature` (source lines 937–950): a `boolean`-typed feature
returns its `value`; a `limit`-typed feature returns
`count < feature.value || feature.value === -1` with `count` defaulting
to `0`; anything else returns `false`. -/
def evaluateFeature (feature : JsValue) (count : Option Int) : JsValue :=
  let c := count.getD 0
  if strictEqStr (getField feature "type") "boolean" then
    getField feature "value"
  else if strictEqStr (getField feature "type") "limit" then
    JsValue.bool (jsLtNum c (getField feature "value") ||
      strictEqNum (getField feature "value") (-1))
  else JsValue.bool false

/-- Operation `isFeatureEnabled` on the gateway's body for the `customer` request
(source lines 1009–1025): an error result of `getCustomer` is returned
unchanged; a truthy feature record under the key is evaluated with
`evaluateFeature`; otherwise `false`. -/
def isFeatureEnabled (response : JsValue) (featureKey : String)
    (count : Option Int) : JsValue :=
  let customer := getCustomer response
  if jsHasKey customer "error" then customer
  else
    let feature := getField (getField customer "features") featureKey
    if truthy feature then evaluateFeature feature count
    else JsValue.bool false

/-- Operation `limitForFeature` on the gateway's body for the `customer` request
(source lines 1033–1048): an error result of `getCustomer` is returned
unchanged; a truthy feature record whose `type === "limit"` yields its
`value`; otherwise `-1`. -/
def limitForFeature (response : JsValue) (featureKey : String) : JsValue :=
  let customer := getCustomer response
  if jsHasKey customer "error" then customer
  else
    let feature := getField (getField customer "features") featureKey
    if truthy feature && strictEqStr (getField feature "type") "limit" then
      getField feature "value"
    else JsValue.num (-1)

/-- The placeholder `createHostedSession` falls back to:
`{ id: "", url: "" }`. -/
def emptyHostedSession : JsValue :=
  JsValue.obj [("id", JsValue.str ""), ("url", JsValue.str "")]

/-- Operation `createHostedSession` on the gateway's returned body (source lines
1224–1243): the body is returned only when it has an `error` key whose
value is also truthy; else a truthy `session` field is unwrapped; else
the empty placeholder. -/
def createHostedSession (response : JsValue) : JsValue :=
  if jsHasKey response "error" && truthy (getField response "error") then
    response
  else if jsHasKey response "session" && truthy (getField response "session") then
    getField response "session"
  else emptyHostedSession

/-- Operation `notify` on the gateway's returned body (source lines 1251–1269):
an `"error" in response` body is returned as-is, otherwise the nested
`response.notifies` is unwrapped. -/
def notify (response : JsValue) : JsValue :=
  if jsHasKey response "error" then response
  else getField response "notifies"

/-- Claim C1: for every request issued through the gateway, whenever the
transport produced a parsed JSON body — whether the status was non-2xx,
the body carries an `error` key, or neither — `mantleRequest` hands the
parsed body itself back to the caller as an ordinary value (never a
thrown exception), and logs nothing. The non-2xx/error-keyed and the
plain case coincide because both arms of the source's conditional
return `result`. -/
theorem mantleRequest_returns_parsed_body_c1 (client : MantleClient)
    (p : MantleRequestParams) (ok : Bool) (body : JsValue) :
    (mantleRequest client p (FetchOutcome.response ok body)).2 =
      (MantleResult.value body, []) := by
  simp only [mantleRequest]
  split <;> rfl

/-- Claim C2: a transport-level failure or malformed JSON body (`fetch` or
`response.json()` threw) makes `mantleRequest` re-raise that exact
exception — no structured error value is synthesized — and emit exactly
one diagnostic log line, which contains the failing path. The model
issues a single fetch per call, so nothing is retried. -/
theorem mantleRequest_transport_failure_c2 (client : MantleClient)
    (p : MantleRequestParams) (msg : String) :
    (mantleRequest client p (FetchOutcome.failure msg)).2.1 =
        MantleResult.thrown msg ∧
    (mantleRequest client p (FetchOutcome.failure msg)).2.2.length = 1 ∧
    ∃ pre post,
      (mantleRequest client p (FetchOutcome.failure msg)).2.2 =
        [pre ++ p.path ++ post] := by
  refine ⟨rfl, rfl, "[mantleRequest] ", " error: " ++ msg, ?_⟩
  show [logLine p.path msg] = _
  rw [logLine, String.append_assoc]

/-- Claim C3: for a feature of type `boolean` present in the fetched
customer's features map, `isFeatureEnabled` returns exactly the
feature's `value` — so it is enabled precisely when that value is
truthy — regardless of any supplied `count`. -/
theorem isFeatureEnabled_boolean_c3 (response : JsValue) (featureKey : String)
    (count : Option Int) (featFields : List (String × JsValue))
    (hNoErr : jsHasKey (getCustomer response) "error" = false)
    (hFeat : getField (getField (getCustomer response) "features") featureKey =
      JsValue.obj featFields)
    (hType : getField (JsValue.obj featFields) "type" = JsValue.str "boolean") :
    isFeatureEnabled response featureKey count =
      getField (JsValue.obj featFields) "value" ∧
    truthy (isFeatureEnabled response featureKey count) =
      truthy (getField (JsValue.obj featFields) "value") := by
  have h : isFeatureEnabled response featureKey count =
      getField (JsValue.obj featFields) "value" := by
    simp only [isFeatureEnabled, hNoErr, Bool.false_eq_true, if_false,
      hFeat, truthy, if_true, evaluateFeature, hType, strictEqStr]
    simp
  exact ⟨h, by rw [h]⟩

/-- Witness for C3 at a concrete customer: a `boolean` feature with
value `true` is reported enabled even with a large count supplied. -/
theorem isFeatureEnabled_boolean_c3_witness :
    isFeatureEnabled
      (JsValue.obj [("customer", JsValue.obj [("features", JsValue.obj
        [("f", JsValue.obj [("type", JsValue.str "boolean"),
                            ("value", JsValue.bool true)])])])])
      "f" (some 5) = JsValue.bool true := by
  have h := isFeatureEnabled_boolean_c3
    (JsValue.obj [("customer", JsValue.obj [("features", JsValue.obj
      [("f", JsValue.obj [("type", JsValue.str "boolean"),
                          ("value", JsValue.bool true)])])])])
    "f" (some 5)
    [("type", JsValue.str "boolean"), ("value", JsValue.bool true)]
    rfl rfl rfl
  exact h.1.trans rfl

/-- Counterexample to claim C4 as stated: the claim's second half
says a feature of any type other than `limit` makes `isFeatureEnabled`
return `false`, but a `boolean`-typed feature with value `true` — a
non-`limit` type — makes it return `true` (the feature's value, per the
`boolean` branch of `evaluateFeature`). -/
theorem isFeatureEnabled_c4_counterexample :
    isFeatureEnabled
      (JsValue.obj [("customer", JsValue.obj [("features", JsValue.obj
        [("f", JsValue.obj [("type", JsValue.str "boolean"),
                            ("value", JsValue.bool true)])])])])
      "f" (some 0) = JsValue.bool true ∧
    ¬ isFeatureEnabled
      (JsValue.obj [("customer", JsValue.obj [("features", JsValue.obj
        [("f", JsValue.obj [("type", JsValue.str "boolean"),
                            ("value", JsValue.bool true)])])])])
      "f" (some 0) = JsValue.bool false := by
  have h : isFeatureEnabled
      (JsValue.obj [("customer", JsValue.obj [("features", JsValue.obj
        [("f", JsValue.obj [("type", JsValue.str "boolean"),
                            ("value", JsValue.bool true)])])])])
      "f" (some 0) = JsValue.bool true := rfl
  refine ⟨h, ?_⟩
  rw [h]
  simp

/-- Claim C4 as amended: for a feature of type `limit` with numeric value
`v`, `isFeatureEnabled` with count `c` (defaulting to `0` when not
supplied) returns `true` iff `c < v` or `v = -1`; for a feature of any
type other than `boolean` and `limit` (including `limit_with_overage`)
or a missing feature key, it returns `false`. -/
theorem isFeatureEnabled_limit_cases_c4 :
    (∀ (response : JsValue) (featureKey : String) (count : Option Int) (v : Int)
       (featFields : List (String × JsValue)),
       jsHasKey (getCustomer response) "error" = false →
       getField (getField (getCustomer response) "features") featureKey =
         JsValue.obj featFields →
       getField (JsValue.obj featFields) "type" = JsValue.str "limit" →
       getField (JsValue.obj featFields) "value" = JsValue.num v →
       (isFeatureEnabled response featureKey count = JsValue.bool true ↔
         (count.getD 0 < v ∨ v = -1))) ∧
    (∀ (response : JsValue) (featureKey : String) (count : Option Int)
       (featFields : List (String × JsValue)) (t : String),
       jsHasKey (getCustomer response) "error" = false →
       getField (getField (getCustomer response) "features") featureKey =
         JsValue.obj featFields →
       getField (JsValue.obj featFields) "type" = JsValue.str t →
       t ≠ "boolean" → t ≠ "limit" →
       isFeatureEnabled response featureKey count = JsValue.bool false) ∧
    (∀ (response : JsValue) (featureKey : String) (count : Option Int),
       jsHasKey (getCustomer response) "error" = false →
       getField (getField (getCustomer response) "features") featureKey =
         JsValue.undefined →
       isFeatureEnabled response featureKey count = JsValue.bool false) := by
  refine ⟨?_, ?_, ?_⟩
  · intro response featureKey count v featFields hNoErr hFeat hType hValue
    simp only [isFeatureEnabled, hNoErr, Bool.false_eq_true, if_false, hFeat,
      truthy, if_true, evaluateFeature, hType, hValue, strictEqStr, strictEqNum,
      jsLtNum, toNumber]
    simp [JsValue.bool.injEq]
  · intro response featureKey count featFields t hNoErr hFeat hType hb hl
    simp [isFeatureEnabled, hNoErr, hFeat, truthy, evaluateFeature, hType,
      strictEqStr, hb, hl]
  · intro response featureKey count hNoErr hFeat
    simp [isFeatureEnabled, hNoErr, hFeat, truthy]

/-- Witness for the amended C4 at concrete customers: a `limit` feature
of value `5` with count `3` is enabled; a `limit_with_overage` feature
is not; a missing feature key is not. -/
theorem isFeatureEnabled_limit_cases_c4_witness :
    isFeatureEnabled
      (JsValue.obj [("customer", JsValue.obj [("features", JsValue.obj
        [("f", JsValue.obj [("type", JsValue.str "limit"),
                            ("value", JsValue.num 5)])])])])
      "f" (some 3) = JsValue.bool true ∧
    isFeatureEnabled
      (JsValue.obj [("customer", JsValue.obj [("features", JsValue.obj
        [("g", JsValue.obj [("type", JsValue.str "limit_with_overage"),
                            ("value", JsValue.num 5)])])])])
      "g" none = JsValue.bool false ∧
    isFeatureEnabled
      (JsValue.obj [("customer", JsValue.obj [("features",
        JsValue.obj [])])])
      "h" none = JsValue.bool false := by
  refine ⟨?_, ?_, ?_⟩
  · exact (isFeatureEnabled_limit_cases_c4.1
      (JsValue.obj [("customer", JsValue.obj [("features", JsValue.obj
        [("f", JsValue.obj [("type", JsValue.str "limit"),
                            ("value", JsValue.num 5)])])])])
      "f" (some 3) 5
      [("type", JsValue.str "limit"), ("value", JsValue.num 5)]
      rfl rfl rfl rfl).mpr (Or.inl (by decide))
  · exact isFeatureEnabled_limit_cases_c4.2.1
      (JsValue.obj [("customer", JsValue.obj [("features", JsValue.obj
        [("g", JsValue.obj [("type", JsValue.str "limit_with_overage"),
                            ("value", JsValue.num 5)])])])])
      "g" none
      [("type", JsValue.str "limit_with_overage"), ("value", JsValue.num 5)]
      "limit_with_overage" rfl rfl rfl (by decide) (by decide)
  · exact isFeatureEnabled_limit_cases_c4.2.2
      (JsValue.obj [("customer", JsValue.obj [("features",
        JsValue.obj [])])])
      "h" none rfl rfl

/-- Claim C5: `limitForFeature` returns the feature's raw `value` exactly
when a feature record exists under the key and its type is exactly
`limit`; for a missing feature key, and for a present feature of any
other type (in particular `boolean` and `limit_with_overage`), it
returns `-1`. -/
theorem limitForFeature_c5 :
    (∀ (response : JsValue) (featureKey : String)
       (featFields : List (String × JsValue)),
       jsHasKey (getCustomer response) "error" = false →
       getField (getField (getCustomer response) "features") featureKey =
         JsValue.obj featFields →
       getField (JsValue.obj featFields) "type" = JsValue.str "limit" →
       limitForFeature response featureKey =
         getField (JsValue.obj featFields) "value") ∧
    (∀ (response : JsValue) (featureKey : String),
       jsHasKey (getCustomer response) "error" = false →
       getField (getField (getCustomer response) "features") featureKey =
         JsValue.undefined →
       limitForFeature response featureKey = JsValue.num (-1)) ∧
    (∀ (response : JsValue) (featureKey : String)
       (featFields : List (String × JsValue)) (t : String),
       jsHasKey (getCustomer response) "error" = false →
       getField (getField (getCustomer response) "features") featureKey =
         JsValue.obj featFields →
       getField (JsValue.obj featFields) "type" = JsValue.str t →
       t ≠ "limit" →
       limitForFeature response featureKey = JsValue.num (-1)) := by
  refine ⟨?_, ?_, ?_⟩
  · intro response featureKey featFields hNoErr hFeat hType
    simp only [limitForFeature, hNoErr, Bool.false_eq_true, if_false, hFeat,
      truthy, hType, strictEqStr]
    simp
  · intro response featureKey hNoErr hFeat
    simp only [limitForFeature, hNoErr, Bool.false_eq_true, if_false, hFeat,
      truthy, strictEqStr]
    simp [getField]
  · intro response featureKey featFields t hNoErr hFeat hType hl
    simp only [limitForFeature, hNoErr, Bool.false_eq_true, if_false, hFeat,
      truthy, hType, strictEqStr]
    simp [hl]

/-- Witness for C5 at concrete customers: a `limit` feature of value
`5` yields `5`; a missing key yields `-1`; a `boolean`-typed feature
yields `-1`. -/
theorem limitForFeature_c5_witness :
    limitForFeature
      (JsValue.obj [("customer", JsValue.obj [("features", JsValue.obj
        [("f", JsValue.obj [("type", JsValue.str "limit"),
                            ("value", JsValue.num 5)])])])])
      "f" = JsValue.num 5 ∧
    limitForFeature
      (JsValue.obj [("customer", JsValue.obj [("features",
        JsValue.obj [])])])
      "h" = JsValue.num (-1) ∧
    limitForFeature
      (JsValue.obj [("customer", JsValue.obj [("features", JsValue.obj
        [("f", JsValue.obj [("type", JsValue.str "boolean"),
                            ("value", JsValue.bool true)])])])])
      "f" = JsValue.num (-1) := by
  refine ⟨?_, ?_, ?_⟩
  · exact (limitForFeature_c5.1
      (JsValue.obj [("customer", JsValue.obj [("features", JsValue.obj
        [("f", JsValue.obj [("type", JsValue.str "limit"),
                            ("value", JsValue.num 5)])])])])
      "f" [("type", JsValue.str "limit"), ("value", JsValue.num 5)]
      rfl rfl rfl).trans rfl
  · exact limitForFeature_c5.2.1
      (JsValue.obj [("customer", JsValue.obj [("features",
        JsValue.obj [])])])
      "h" rfl rfl
  · exact limitForFeature_c5.2.2
      (JsValue.obj [("customer", JsValue.obj [("features", JsValue.obj
        [("f", JsValue.obj [("type", JsValue.str "boolean"),
                            ("value", JsValue.bool true)])])])])
      "f" [("type", JsValue.str "boolean"), ("value", JsValue.bool true)]
      "boolean" rfl rfl rfl (by decide)

/-- Claim C6: when the `getCustomer` step yields a structured error — a value
carrying an `error` key — both `isFeatureEnabled` and `limitForFeature`
return that error object unchanged, evaluating no feature. -/
theorem featureHelpers_propagate_error_c6 (response : JsValue)
    (featureKey : String) (count : Option Int)
    (hErr : jsHasKey (getCustomer response) "error" = true) :
    isFeatureEnabled response featureKey count = getCustomer response ∧
    limitForFeature response featureKey = getCustomer response := by
  constructor
  · simp only [isFeatureEnabled, hErr, if_true]
  · simp only [limitForFeature, hErr, if_true]

/-- Witness for C6 at a concrete structured error: the gateway body
`(error: "Unauthorized", details: "bad token")` comes back verbatim
from both helpers. -/
theorem featureHelpers_propagate_error_c6_witness :
    isFeatureEnabled
      (JsValue.obj [("error", JsValue.str "Unauthorized"),
                    ("details", JsValue.str "bad token")])
      "f" none =
      JsValue.obj [("error", JsValue.str "Unauthorized"),
                   ("details", JsValue.str "bad token")] ∧
    limitForFeature
      (JsValue.obj [("error", JsValue.str "Unauthorized"),
                    ("details", JsValue.str "bad token")])
      "f" =
      JsValue.obj [("error", JsValue.str "Unauthorized"),
                   ("details", JsValue.str "bad token")] := by
  refine ⟨?_, ?_⟩
  · exact ((featureHelpers_propagate_error_c6
      (JsValue.obj [("error", JsValue.str "Unauthorized"),
                    ("details", JsValue.str "bad token")])
      "f" none rfl).1).trans rfl
  · exact ((featureHelpers_propagate_error_c6
      (JsValue.obj [("error", JsValue.str "Unauthorized"),
                    ("details", JsValue.str "bad token")])
      "f" none rfl).2).trans rfl

/-- Claim C10: when the gateway hands `createHostedSession` an object that
has an `error` key whose value is falsy (e.g. a non-2xx body with an
empty `error`), the truthiness test `"error" in response &&
response.error` fails, so the error object is not returned: a present
truthy `session` field is unwrapped, and otherwise the placeholder
`(id: "", url: "")` is produced — whereas `getCustomer` and `notify`,
whose tests are bare `"error" in response`, return the very same object
as-is (every remaining operation passes the gateway result through
unchanged). -/
theorem createHostedSession_falsy_error_c10 (response : JsValue)
    (hKey : jsHasKey response "error" = true)
    (hFalsy : truthy (getField response "error") = false) :
    (jsHasKey response "session" = true →
      truthy (getField response "session") = true →
      createHostedSession response = getField response "session") ∧
    ((jsHasKey response "session" && truthy (getField response "session")) =
        false →
      createHostedSession response = emptyHostedSession) ∧
    getCustomer response = response ∧
    notify response = response := by
  refine ⟨?_, ?_, ?_, ?_⟩
  · intro hk hs
    simp [createHostedSession, hKey, hFalsy, hk, hs]
  · intro hns
    simp [createHostedSession, hKey, hFalsy, hns]
  · simp [getCustomer, hKey]
  · simp [notify, hKey]

/-- Witness for C10 at two concrete bodies carrying `error: ""`: one
without a session, yielding the placeholder rather than the error
object, and one with a session, yielding the session. -/
theorem createHostedSession_falsy_error_c10_witness :
    createHostedSession (JsValue.obj [("error", JsValue.str "")]) =
      emptyHostedSession ∧
    getCustomer (JsValue.obj [("error", JsValue.str "")]) =
      JsValue.obj [("error", JsValue.str "")] ∧
    createHostedSession
      (JsValue.obj [("error", JsValue.str ""),
        ("session", JsValue.obj [("id", JsValue.str "s1"),
                                 ("url", JsValue.str "https://u")])]) =
      JsValue.obj [("id", JsValue.str "s1"),
                   ("url", JsValue.str "https://u")] := by
  refine ⟨?_, ?_, ?_⟩
  · exact (createHostedSession_falsy_error_c10
      (JsValue.obj [("error", JsValue.str "")]) rfl rfl).2.1 rfl
  · exact (createHostedSession_falsy_error_c10
      (JsValue.obj [("error", JsValue.str "")]) rfl rfl).2.2.1
  · exact ((createHostedSession_falsy_error_c10
      (JsValue.obj [("error", JsValue.str ""),
        ("session", JsValue.obj [("id", JsValue.str "s1"),
                                 ("url", JsValue.str "https://u")])])
      rfl rfl).1 rfl rfl).trans rfl

/-- Claim C8: every outbound request carries `Content-Type: application/json`,
`Accept: application/json` and the app-identifier header
`X-Mantle-App-Id` with the configured app id; the API-key header
`X-Mantle-App-Api-Key` is attached exactly when an API key is
configured (truthy), and the customer-token header
`X-Mantle-Customer-Api-Token` exactly when a customer token is
configured — so exactly one of the two is present when exactly one
credential is configured, and both when both are. -/
theorem buildRequest_headers_c8 (client : MantleClient)
    (p : MantleRequestParams) :
    (buildRequest client p).headers.lookup "Content-Type" =
        some "application/json" ∧
    (buildRequest client p).headers.lookup "Accept" =
        some "application/json" ∧
    (buildRequest client p).headers.lookup "X-Mantle-App-Id" =
        some client.appId ∧
    ((buildRequest client p).headers.lookup "X-Mantle-App-Api-Key").isSome =
        optTruthy client.apiKey ∧
    ((buildRequest client p).headers.lookup
        "X-Mantle-Customer-Api-Token").isSome =
        optTruthy client.customerApiToken := by
  obtain ⟨aid, ak, ct, au⟩ := client
  cases ak with
  | none =>
    cases ct with
    | none => exact ⟨rfl, rfl, rfl, rfl, rfl⟩
    | some t =>
      by_cases ht : t = "" <;>
        simp [buildRequest, requestHeaders, optTruthy, List.lookup, ht]
  | some k =>
    cases ct with
    | none =>
      by_cases hk : k = "" <;>
        simp [buildRequest, requestHeaders, optTruthy, List.lookup, hk]
    | some t =>
      by_cases hk : k = "" <;> by_cases ht : t = "" <;>
        simp [buildRequest, requestHeaders, optTruthy, List.lookup, hk, ht]

/-- Claim C9: constructing a `MantleClient` throws iff the `appId` is missing
(JS-falsy, i.e. empty) or an `apiKey` is supplied (truthy) while a
browser-like global context (`typeof window !== "undefined"`) is
detected; in every other case — including when neither `apiKey` nor
`customerApiToken` is supplied — construction succeeds and stores the
parameters unchanged (`apiUrl` falling back to its declared default). -/
theorem mkMantleClient_c9 (windowDefined : Bool) (p : MantleClientParams) :
    ((∃ e, mkMantleClient windowDefined p = Except.error e) ↔
      (p.appId = "" ∨ (windowDefined = true ∧ optTruthy p.apiKey = true))) ∧
    (∀ client, mkMantleClient windowDefined p = Except.ok client →
      client.appId = p.appId ∧ client.apiKey = p.apiKey ∧
      client.customerApiToken = p.customerApiToken ∧
      client.apiUrl = p.apiUrl.getD defaultApiUrl) := by
  constructor
  · constructor
    · rintro ⟨e, he⟩
      rw [mkMantleClient] at he
      by_cases h1 : p.appId = ""
      · exact Or.inl h1
      · rw [if_neg (by simpa using h1)] at he
        by_cases h2 : (windowDefined && optTruthy p.apiKey) = true
        · right
          simpa using h2
        · rw [if_neg (by simpa using h2)] at he
          exact absurd he (by simp)
    · rintro (h | ⟨hw, hk⟩)
      · exact ⟨"MantleClient appId is required",
          by rw [mkMantleClient, if_pos (by simpa using h)]⟩
      · by_cases h1 : p.appId = ""
        · exact ⟨"MantleClient appId is required",
            by rw [mkMantleClient, if_pos (by simpa using h1)]⟩
        · exact ⟨"MantleClient apiKey should never be used in the browser",
            by rw [mkMantleClient, if_neg (by simpa using h1),
              if_pos (by simp [hw, hk])]⟩
  · intro client h
    rw [mkMantleClient] at h
    by_cases h1 : p.appId = ""
    · rw [if_pos (by simpa using h1)] at h
      exact absurd h (by simp)
    · rw [if_neg (by simpa using h1)] at h
      by_cases h2 : (windowDefined && optTruthy p.apiKey) = true
      · rw [if_pos h2] at h
        exact absurd h (by simp)
      · rw [if_neg h2] at h
        have := Except.ok.inj h
        rw [← this]
        exact ⟨rfl, rfl, rfl, rfl⟩

/-- Witness for C9: an empty `appId` is rejected; an `appId` alone —
with neither credential supplied — constructs a client storing the
defaults unchanged. -/
theorem mkMantleClient_c9_witness :
    (∃ e, mkMantleClient false
      { appId := "", apiKey := none, customerApiToken := none,
        apiUrl := none } = Except.error e) ∧
    ((mkMantleClient false
      { appId := "app-1", apiKey := none, customerApiToken := none,
        apiUrl := none } = Except.ok
        { appId := "app-1", apiKey := none, customerApiToken := none,
          apiUrl := defaultApiUrl }) ∧
      "app-1" = "app-1") := by
  refine ⟨?_, rfl, rfl⟩
  exact (mkMantleClient_c9 false
    { appId := "", apiKey := none, customerApiToken := none,
      apiUrl := none }).1.mpr (Or.inl rfl)

/-- A string that begins with a slash is that slash followed by the
rest of its characters. -/
theorem slash_append_tail (s : String) (h : startsWithSlash s = true) :
    "/" ++ String.mk s.data.tail = s := by
  rcases s with ⟨cs⟩
  cases cs with
  | nil => simp [startsWithSlash] at h
  | cons c rest =>
    simp only [startsWithSlash, beq_iff_eq] at h
    subst h
    rfl

/-- The URL junction the source builds —
`apiUrl ++ (path.startsWith("/") ? "" : "/") ++ path` — equals the base
URL, one inserted slash, and the path less a single leading slash. -/
theorem url_junction_eq (base p : String) :
    base ++ (if startsWithSlash p then "" else "/") ++ p =
      base ++ "/" ++ dropOneLeadingSlash p := by
  by_cases h : startsWithSlash p = true
  · rw [if_pos h, dropOneLeadingSlash, if_pos h, String.append_assoc,
      String.append_assoc, slash_append_tail p h]
    rfl
  · rw [if_neg h, dropOneLeadingSlash, if_neg h]

/-- Claim C7 as amended: the target URL is the configured base URL, one
inserted slash, and the path stripped of a single leading slash — so a
doubled separator survives exactly when the base URL ends in `/` or the
path begins with `//` — followed, when the method is GET and a body is
present, by `?` and the body serialized as query parameters (with no
request payload); when the method is not GET and a body is present, the
URL carries no query and the body is serialized as a JSON payload. -/
theorem buildRequest_url_c7_amended (client : MantleClient)
    (p : MantleRequestParams) (b : List (String × JsValue)) :
    (p.body = none →
      (buildRequest client p).url =
        client.apiUrl ++ "/" ++ dropOneLeadingSlash p.path ∧
      (buildRequest client p).payload = none) ∧
    (p.body = some b → p.method = "GET" →
      (buildRequest client p).url =
        client.apiUrl ++ "/" ++ dropOneLeadingSlash p.path ++
          ("?" ++ urlSearchParams b) ∧
      (buildRequest client p).payload = none) ∧
    (p.body = some b → p.method ≠ "GET" →
      (buildRequest client p).url =
        client.apiUrl ++ "/" ++ dropOneLeadingSlash p.path ∧
      (buildRequest client p).payload =
        some (jsonStringify (JsValue.obj b))) := by
  refine ⟨?_, ?_, ?_⟩
  · intro hb
    constructor
    · show client.apiUrl ++ _ ++ p.path ++ _ = _
      rw [hb, url_junction_eq]
      simp
    · simp [buildRequest, hb]
  · intro hb hm
    constructor
    · show client.apiUrl ++ _ ++ p.path ++ _ = _
      rw [hb, hm, url_junction_eq]
      simp
    · simp [buildRequest, hb, hm]
  · intro hb hm
    constructor
    · show client.apiUrl ++ _ ++ p.path ++ _ = _
      rw [hb, url_junction_eq]
      simp [hm]
    · simp [buildRequest, hb, hm]

/-- Witness for the amended C7 at concrete requests: a GET with a body
puts the serialized body in the query string with no payload, and a
POST with a body sends it as a JSON payload with no query string. -/
theorem buildRequest_url_c7_amended_witness :
    (buildRequest
      { appId := "app", apiKey := none, customerApiToken := none,
        apiUrl := "https://api.example.com" }
      { path := "customer", method := "GET",
        body := some [("id", JsValue.str "42")] }).url =
      "https://api.example.com/customer?id=42" ∧
    (buildRequest
      { appId := "app", apiKey := none, customerApiToken := none,
        apiUrl := "https://api.example.com" }
      { path := "identify", method := "POST",
        body := some [("platformId", JsValue.str "42")] }).payload =
      some (jsonStringify
        (JsValue.obj [("platformId", JsValue.str "42")])) := by
  constructor
  · exact (((buildRequest_url_c7_amended
      { appId := "app", apiKey := none, customerApiToken := none,
        apiUrl := "https://api.example.com" }
      { path := "customer", method := "GET",
        body := some [("id", JsValue.str "42")] }
      [("id", JsValue.str "42")]).2.1 rfl rfl).1).trans (by decide)
  · exact ((buildRequest_url_c7_amended
      { appId := "app", apiKey := none, customerApiToken := none,
        apiUrl := "https://api.example.com" }
      { path := "identify", method := "POST",
        body := some [("platformId", JsValue.str "42")] }
      [("platformId", JsValue.str "42")]).2.2 rfl (by decide)).2

/-- Counterexample to claim C7 as stated: with the configured base
URL `https://api.example.com/` (trailing slash) and path `customer`,
the code still inserts a slash, producing a target URL with two
separating slashes rather than the claimed exactly one. -/
theorem buildRequest_url_c7_counterexample :
    (buildRequest
      { appId := "app", apiKey := none, customerApiToken := none,
        apiUrl := "https://api.example.com/" }
      { path := "customer", method := "GET", body := none }).url =
      "https://api.example.com//customer" ∧
    "https://api.example.com//customer" ≠
      "https://api.example.com" ++ "/" ++ "customer" := by
  constructor
  · decide
  · decide
